import Mathlib

/-!
Verification development for the reconciliation core of the thanos-operator:
the ThanosQuery controller (endpoint discovery, watch routing, sync protocol)
and the ThanosStore controller (desired-state build, sync protocol).

The Go sources are shallowly embedded: label maps become association lists,
cluster round trips (get/list/create-or-update) become explicit inputs and
outputs, Prometheus counters become natural-number fields of an explicit
state, and emitted Kubernetes events become lists. Library helpers that live
outside the shown sources (`manifests.IsGrpcServiceWithLabels`,
`manifests.BuildLabelSelectorFrom`, `resource.MustParse`, the
controller-runtime predicates) are modelled from the spec and from their
documented library semantics, and are marked as such in their doc comments.
-/

/-- Label maps (Kubernetes `map[string]string`) as association lists;
lookup takes the first binding of a key. -/
def Labels := List (String × String)

instance : DecidableEq Labels := by
  unfold Labels
  infer_instance

instance : Append Labels := by
  unfold Labels
  infer_instance

/-- Lookup of a label key (Go `m[k]` with presence flag). -/
def Labels.get (ls : Labels) (k : String) : Option String :=
  (List.find? (fun p => p.1 == k) ls).map Prod.snd

/-- Key-presence test (Go `_, ok := m[k]`; `metav1.HasLabel`). -/
def Labels.hasKey (ls : Labels) (k : String) : Bool :=
  (ls.get k).isSome

/-- Extensional equality of label maps (Go `reflect.DeepEqual` on maps:
order and duplicate bindings of the association list are irrelevant). -/
def labelsEq (a b : Labels) : Bool :=
  List.all a (fun kv => b.get kv.1 == a.get kv.1) &&
  List.all b (fun kv => a.get kv.1 == b.get kv.1)

/-- A `MatchLabels`-style requirement set holds of a label map when every
required key is bound to the required value. -/
def matchesRequiredLabels (required : Labels) (ls : Labels) : Bool :=
  List.all required (fun kv => ls.get kv.1 == some kv.2)

/-- Modelled from the spec: the mandatory "is-store-API" sentinel label key
(`manifests.DefaultStoreAPILabel`, defined outside the shown sources). -/
def DefaultStoreAPILabel : String := "operator.thanos.io/store-api"

/-- Modelled from the spec: the value of the "is-store-API" sentinel
(`manifests.DefaultStoreAPIValue`). -/
def DefaultStoreAPIValue : String := "true"

/-- Modelled from the spec: the "part-of" sentinel label key
(`manifests.PartOfLabel`). -/
def PartOfLabel : String := "app.kubernetes.io/part-of"

/-- Modelled from the spec: the value of the "part-of" sentinel
(`manifests.DefaultPartOfLabel`). -/
def DefaultPartOfLabel : String := "thanos"

/-- `requiredStoreServiceLabels` from the ThanosQuery controller: the two
mandatory base labels every eligible StoreAPI service must carry. -/
def requiredStoreServiceLabels : Labels :=
  [(DefaultStoreAPILabel, DefaultStoreAPIValue), (PartOfLabel, DefaultPartOfLabel)]

/-- Modelled from the spec: the required port name under which a StoreAPI
service must advertise its gRPC port. -/
def GrpcPortName : String := "grpc"

/-- A Kubernetes Service as the controller observes it: identity, label
map, and named ports. -/
structure Service where
  name : String
  ns : String
  labels : Labels
  ports : List (String × Nat)
deriving DecidableEq

/-- Modelled from the spec: `manifests.IsGrpcServiceWithLabels` (defined
outside the shown sources) — checks that the object carries the required
label pair and advertises a port under the required gRPC port name, and
returns that port on success (Go returns `(port, ok)`). -/
def IsGrpcServiceWithLabels (svc : Service) (required : Labels) : Option Nat :=
  if matchesRequiredLabels required svc.labels then
    (List.find? (fun p => p.1 == GrpcPortName) svc.ports).map Prod.snd
  else
    none

/-- `isQueueableStoreService` from the ThanosQuery controller: true when the
service satisfies the is-store-API + gRPC-port contract. -/
def isQueueableStoreService (svc : Service) : Bool :=
  (IsGrpcServiceWithLabels svc requiredStoreServiceLabels).isSome

/-- Endpoint types are strings in the Go source (`manifestquery.EndpointType`),
doubling as the classification marker label keys. -/
def EndpointType := String
deriving instance DecidableEq for EndpointType

/-- Modelled from the spec: the Regular endpoint type / marker label key
(`manifestquery.RegularLabel`, defined outside the shown sources). -/
def RegularLabel : EndpointType := "operator.thanos.io/endpoint"

/-- Modelled from the spec: the Strict endpoint type / marker label key
(`manifestquery.StrictLabel`). -/
def StrictLabel : EndpointType := "operator.thanos.io/endpoint-strict"

/-- Modelled from the spec: the Group endpoint type / marker label key
(`manifestquery.GroupLabel`). -/
def GroupLabel : EndpointType := "operator.thanos.io/endpoint-group"

/-- Modelled from the spec: the GroupStrict endpoint type / marker label key
(`manifestquery.GroupStrictLabel`). -/
def GroupStrictLabel : EndpointType := "operator.thanos.io/endpoint-group-strict"

/-- `getServiceTypeFromLabel` (ThanosQuery controller, lines 380-391):
starts from `Regular` and overwrites by checking the marker labels in the
order Strict, GroupStrict, Group via `metav1.HasLabel`. -/
def getServiceTypeFromLabel (ls : Labels) : EndpointType :=
  if ls.hasKey StrictLabel then StrictLabel
  else if ls.hasKey GroupStrictLabel then GroupStrictLabel
  else if ls.hasKey GroupLabel then GroupLabel
  else RegularLabel

/-- `manifestquery.Endpoint`: `{ServiceName, Port, Namespace, Type}`. -/
structure Endpoint where
  serviceName : String
  port : Nat
  ns : String
  etype : EndpointType
deriving DecidableEq

/-- The Go zero value of `manifestquery.Endpoint` — what `make([]Endpoint, n)`
fills each slot with: empty strings, port 0, and the empty string as type
(which is none of the four endpoint types). -/
def zeroEndpoint : Endpoint :=
  { serviceName := "", port := 0, ns := "", etype := ("" : String) }

/-- The body of the discovery loop for one matching service
(`getStoreAPIServiceEndpoints`, lines 237-257): when the gRPC-port check
fails the Go loop does `continue`, leaving the pre-sized slice's zero value
at that index — modelled by returning `zeroEndpoint`. -/
def endpointFor (svc : Service) : Endpoint :=
  match IsGrpcServiceWithLabels svc requiredStoreServiceLabels with
  | none => zeroEndpoint
  | some port =>
    { serviceName := svc.name, port := port, ns := svc.ns,
      etype := getServiceTypeFromLabel svc.labels }

/-- The `EndpointsConfigured` counter increment for one matching service:
`some (etype, queryName, queryNamespace)` exactly when the service passes the
gRPC-port check (the `continue` path increments no counter). -/
def counterIncFor (qname qns : String) (svc : Service) :
    Option (EndpointType × String × String) :=
  (IsGrpcServiceWithLabels svc requiredStoreServiceLabels).map
    (fun _ => (getServiceTypeFromLabel svc.labels, qname, qns))

/-- An emitted Kubernetes event: `(type, reason, message)` as passed to
`Recorder.Event`. -/
structure REvent where
  etype : String
  reason : String
  msg : String
deriving DecidableEq

/-- `getStoreAPIServiceEndpoints` (ThanosQuery controller, lines 217-260).
The selector build and the namespace-scoped List round trip are abstracted
into the `services` input (the services matching the effective selector).
Embedded here: the zero-match warning event, the slice pre-sized with
`make([]Endpoint, len(services.Items))`, the per-service gRPC check whose
failure `continue`s (leaving the zero value in place), classification, and
the per-type `EndpointsConfigured` counter increments. Returns
(endpoint slice, counter increments in order, emitted events). -/
def getStoreAPIServiceEndpoints (qname qns : String) (services : List Service) :
    List Endpoint × List (EndpointType × String × String) × List REvent :=
  if services.length == 0 then
    ([], [], [{ etype := "Warning", reason := "NoEndpointsFound",
                msg := "No StoreAPI services found" }])
  else
    (services.map endpointFor, services.filterMap (counterIncFor qname qns), [])

/-- A `metav1.LabelSelector` match expression: key, operator, values. -/
structure MatchExpression where
  key : String
  op : String
  values : List String
deriving DecidableEq

/-- A user-supplied `metav1.LabelSelector` override: equality requirements
plus match expressions. -/
structure LabelSelector where
  matchLabels : Labels
  matchExpressions : List MatchExpression
deriving DecidableEq

/-- Modelled from Kubernetes `LabelSelectorAsSelector` validation: an
expression is well formed when its operator is one of In / NotIn (with a
nonempty value list) or Exists / DoesNotExist (with an empty value list);
anything else makes the selector build fail. -/
def validMatchExpression (e : MatchExpression) : Bool :=
  (e.op == "In" && !e.values.isEmpty) ||
  (e.op == "NotIn" && !e.values.isEmpty) ||
  (e.op == "Exists" && e.values.isEmpty) ||
  (e.op == "DoesNotExist" && e.values.isEmpty)

/-- Modelled from Kubernetes requirement semantics: whether one match
expression holds of a label map. -/
def matchExpressionHolds (e : MatchExpression) (ls : Labels) : Bool :=
  if e.op == "In" then
    match ls.get e.key with
    | some v => e.values.contains v
    | none => false
  else if e.op == "NotIn" then
    match ls.get e.key with
    | some v => !e.values.contains v
    | none => true
  else if e.op == "Exists" then
    (ls.get e.key).isSome
  else if e.op == "DoesNotExist" then
    (ls.get e.key).isNone
  else
    false

/-- A built (validated) selector: the effective equality requirements and the
validated expressions. -/
structure Selector where
  matchLabels : Labels
  matchExpressions : List MatchExpression
deriving DecidableEq

/-- Membership test of a label map against a built selector
(`labels.Selector.Matches`). -/
def Selector.selMatches (s : Selector) (ls : Labels) : Bool :=
  matchesRequiredLabels s.matchLabels ls &&
  List.all s.matchExpressions (fun e => matchExpressionHolds e ls)

/-- Modelled from the spec: `manifests.BuildLabelSelectorFrom` (defined
outside the shown sources) — builds the effective selector as the user
override AND-ed with the required base labels; a malformed user selector
(invalid match expression) is an error. A `none` override contributes no
user requirements. -/
def BuildLabelSelectorFrom (user : Option LabelSelector) (required : Labels) :
    Except String Selector :=
  let u := user.getD { matchLabels := [], matchExpressions := [] }
  if List.all u.matchExpressions validMatchExpression then
    Except.ok { matchLabels := u.matchLabels ++ required,
                matchExpressions := u.matchExpressions }
  else
    Except.error "invalid label selector"

/-- The ThanosQuery custom resource, restricted to the fields the embedded
code paths consume: identity, the pause flag (a nullable bool in Go), and
the store-label-selector override. -/
structure ThanosQueryRes where
  name : String
  ns : String
  paused : Option Bool
  storeLabelSelector : Option LabelSelector
deriving DecidableEq

/-- A reconciliation request (`reconcile.Request`): name and namespace of
the resource instance to re-enqueue. -/
structure Request where
  name : String
  ns : String
deriving DecidableEq

/-- Whether a query instance's effective selector both builds successfully
and matches the given label set (the per-instance test inside the watch
router loop; a build failure means the instance contributes no request). -/
def effectiveSelectorMatches (q : ThanosQueryRes) (ls : Labels) : Bool :=
  match BuildLabelSelectorFrom q.storeLabelSelector requiredStoreServiceLabels with
  | Except.ok sel => sel.selMatches ls
  | Except.error _ => false

/-- `enqueueForService` (ThanosQuery controller, lines 335-372): the map
function of the watch router. The namespace-scoped List of ThanosQuery
instances is abstracted into the `listResult` input (`Except.error` models a
failed List round trip). Returns the requests and the updated
`ServiceWatchesReconciliationsTotal` counter: irrelevant services and List
failures return the empty set without touching the counter; otherwise each
instance whose effective selector builds and matches the service labels
contributes exactly one request, selector-build failures being skipped. -/
def enqueueForService (svc : Service)
    (listResult : Except String (List ThanosQueryRes)) (watchCounter : Nat) :
    List Request × Nat :=
  if !isQueueableStoreService svc then
    ([], watchCounter)
  else
    match listResult with
    | Except.error _ => ([], watchCounter)
    | Except.ok queriers =>
      let requests := queriers.filterMap (fun q =>
        match BuildLabelSelectorFrom q.storeLabelSelector requiredStoreServiceLabels with
        | Except.error _ => none
        | Except.ok sel =>
          if sel.selMatches svc.labels then
            some { name := q.name, ns := q.ns }
          else
            none)
      (requests, watchCounter + requests.length)

/-- Object metadata relevant to the watch predicates: label map and
generation. -/
structure ObjMeta where
  labels : Labels
  generation : Int
deriving DecidableEq

/-- A watch event on a dependency Service, carrying the object (and, for
updates, the old and new object). -/
inductive ServiceEvent
  | create (obj : ObjMeta)
  | update (oldObj newObj : ObjMeta)
  | delete (obj : ObjMeta)
deriving DecidableEq

/-- Modelled from controller-runtime: `predicate.LabelSelectorPredicate`
over a MatchLabels-only selector — tests the labels of the event object
(the new object for updates). -/
def labelSelectorPredicateFor (required : Labels) : ServiceEvent → Bool
  | ServiceEvent.create o => matchesRequiredLabels required o.labels
  | ServiceEvent.update _ n => matchesRequiredLabels required n.labels
  | ServiceEvent.delete o => matchesRequiredLabels required o.labels

/-- Modelled from controller-runtime: `predicate.LabelChangedPredicate` —
on update, true exactly when the label maps differ; create and delete
events pass. -/
def labelChangedPredicate : ServiceEvent → Bool
  | ServiceEvent.update o n => !labelsEq o.labels n.labels
  | _ => true

/-- Modelled from controller-runtime: `predicate.GenerationChangedPredicate`
— on update, true exactly when the generations differ; create and delete
events pass. -/
def generationChangedPredicate : ServiceEvent → Bool
  | ServiceEvent.update o n => !(o.generation == n.generation)
  | _ => true

/-- `predicate.And`: all predicates admit the event. -/
def predicateAnd (ps : List (ServiceEvent → Bool)) (e : ServiceEvent) : Bool :=
  List.all ps (fun p => p e)

/-- `predicate.Or`: some predicate admits the event. -/
def predicateOr (ps : List (ServiceEvent → Bool)) (e : ServiceEvent) : Bool :=
  List.any ps (fun p => p e)

/-- `servicePredicate` from `SetupWithManager` (lines 301-306): the base
label selector predicate over `requiredStoreServiceLabels`. -/
def servicePredicate : ServiceEvent → Bool :=
  labelSelectorPredicateFor requiredStoreServiceLabels

/-- `withLabelChangedPredicate` (line 308):
`predicate.And(servicePredicate, predicate.LabelChangedPredicate{})`. -/
def withLabelChangedPredicate : ServiceEvent → Bool :=
  predicateAnd [servicePredicate, labelChangedPredicate]

/-- `withGenerationChangePredicate` (line 309): `predicate.And(
servicePredicate, predicate.GenerationChangedPredicate{}, servicePredicate)`
(the source lists the service predicate twice). -/
def withGenerationChangePredicate : ServiceEvent → Bool :=
  predicateAnd [servicePredicate, generationChangedPredicate, servicePredicate]

/-- `withPredicate` (line 310): the OR of the two composites; this is the
predicate installed on the Service watch. -/
def withPredicate : ServiceEvent → Bool :=
  predicateOr [withLabelChangedPredicate, withGenerationChangePredicate]

/-- One desired object as seen by the sync loop, with the behaviour of the
cluster round trips for it: whether `manifests.IsNamespacedResource` holds,
whether `ctrl.SetControllerReference` fails for it (scheme mismatch), and
whether `ctrl.CreateOrUpdate` fails for it. -/
structure SyncObj where
  name : String
  isNamespacedResource : Bool
  ownerRefError : Bool
  createOrUpdateError : Bool
deriving DecidableEq

/-- A desired object fails its loop iteration when the owner-reference step
fails (attempted only for namespaced resources; `continue` skips the
create-or-update), or otherwise when its create-or-update call fails. -/
def SyncObj.fails (o : SyncObj) : Bool :=
  if o.isNamespacedResource && o.ownerRefError then true
  else o.createOrUpdateError

/-- The sync loop of the ThanosQuery controller (`syncResources`, lines
140-170): per-object isolation via `continue`; returns the failure count
`errCount` and the names of the objects successfully created or updated, in
order. -/
def querySyncLoop : List SyncObj → Nat × List String
  | [] => (0, [])
  | o :: rest =>
    let r := querySyncLoop rest
    if o.isNamespacedResource && o.ownerRefError then (r.1 + 1, r.2)
    else if o.createOrUpdateError then (r.1 + 1, r.2)
    else (r.1, o.name :: r.2)

/-- The per-object warning event the ThanosStore sync loop emits when a
create-or-update call fails (thanosstore_controller.go line 142). -/
def storeSyncFailedEvent (o : SyncObj) : REvent :=
  { etype := "Warning", reason := "SyncFailed", msg := s!"Failed to sync resource {o.name}" }

/-- The sync loop of the ThanosStore controller (`syncResources`, lines
120-151): identical to the query loop except that each create-or-update
failure additionally emits a warning event. Returns (errCount, applied
names, emitted events). -/
def storeSyncLoop : List SyncObj → Nat × List String × List REvent
  | [] => (0, [], [])
  | o :: rest =>
    let r := storeSyncLoop rest
    if o.isNamespacedResource && o.ownerRefError then (r.1 + 1, r.2.1, r.2.2)
    else if o.createOrUpdateError then (r.1 + 1, r.2.1, storeSyncFailedEvent o :: r.2.2)
    else (r.1, o.name :: r.2.1, r.2.2)

/-- The aggregate error message of the ThanosQuery sync pass
(`fmt.Errorf`, line 174). -/
def queryAggMsg (c : Nat) : String :=
  s!"failed to create or update {c} resources for the querier and query frontend"

/-- The aggregate error message of the ThanosStore sync pass
(thanosstore_controller.go line 155). -/
def storeAggMsg (c : Nat) : String :=
  s!"failed to create or update {c} resources for the store"

/-- `syncResources` of the ThanosQuery controller (lines 123-178), loop and
aggregation. The desired-object build (`buildQuerier` / `buildQueryFrontend`)
is abstracted into the `objs` input. Returns (aggregate error if any,
updated `ClientErrorsTotal` counter, applied object names): when `errCount`
is positive the counter is increased by it and the aggregate error is
returned; otherwise success. -/
def querySyncResources (objs : List SyncObj) (clientErrors : Nat) :
    Option String × Nat × List String :=
  let r := querySyncLoop objs
  if r.1 > 0 then
    (some (queryAggMsg r.1), clientErrors + r.1, r.2)
  else
    (none, clientErrors, r.2)

/-- `syncResources` of the ThanosStore controller (lines 113-159), loop and
aggregation; additionally returns the per-object warning events emitted
inside the loop. The desired-object build (`buildStore`) is abstracted into
the `objs` input (its panic behaviour on a malformed storage size is
embedded separately as `buildStore`). -/
def storeSyncResources (objs : List SyncObj) (clientErrors : Nat) :
    Option String × Nat × List String × List REvent :=
  let r := storeSyncLoop objs
  if r.1 > 0 then
    (some (storeAggMsg r.1), clientErrors + r.1, r.2.1, r.2.2)
  else
    (none, clientErrors, r.2.1, r.2.2)

/-- The observable controller state threaded through a reconciliation pass:
the three base counters, the emitted events, and the names of the objects
written to the cluster (successful create-or-update calls). -/
structure RecState where
  reconciliationsTotal : Nat
  reconciliationsFailedTotal : Nat
  clientErrorsTotal : Nat
  events : List REvent
  writes : List String
deriving DecidableEq

/-- The outcome of one reconciliation pass: the returned error (if any), the
requeue flag of the returned `ctrl.Result` (always the zero value in these
controllers), whether the sync protocol was entered, and the resulting
observable state. -/
structure RecOutput where
  err : Option String
  requeue : Bool
  syncCalled : Bool
  state : RecState
deriving DecidableEq

/-- Outcome of the Get-by-key round trip at the top of `Reconcile`: the
resource was found, or the fetch failed with not-found, or with any other
error. -/
inductive FetchResult (α : Type)
  | notFound
  | getError (msg : String)
  | found (res : α)
deriving DecidableEq

/-- The informational event emitted by the paused short-circuit of the
ThanosQuery controller (line 109). -/
def queryPausedEvent : REvent :=
  { etype := "Normal", reason := "Paused",
    msg := "Reconciliation is paused for ThanosQuery resource" }

/-- `Reconcile` of the ThanosQuery controller (lines 90-121).
`ReconciliationsTotal` is incremented on entry; a fetch error increments
`ClientErrorsTotal` before the not-found test (so not-found also counts);
not-found returns terminal success; other fetch errors add the failed
counter, a warning event and return the error; an explicitly-true pause
flag emits one informational event and returns success; otherwise the sync
protocol runs (the desired-object build being abstracted into `objs`) and
its aggregate failure, if any, adds the failed counter and a warning event.
`ctrl.Result{}` is the zero value everywhere, so `requeue` is `false` on
every path. -/
def queryReconcile (fetch : FetchResult ThanosQueryRes) (objs : List SyncObj)
    (st : RecState) : RecOutput :=
  let st := { st with reconciliationsTotal := st.reconciliationsTotal + 1 }
  match fetch with
  | FetchResult.notFound =>
    { err := none, requeue := false, syncCalled := false,
      state := { st with clientErrorsTotal := st.clientErrorsTotal + 1 } }
  | FetchResult.getError msg =>
    { err := some msg, requeue := false, syncCalled := false,
      state := { st with
        clientErrorsTotal := st.clientErrorsTotal + 1,
        reconciliationsFailedTotal := st.reconciliationsFailedTotal + 1,
        events := st.events ++
          [{ etype := "Warning", reason := "GetFailed",
             msg := "Failed to get ThanosQuery resource" }] } }
  | FetchResult.found q =>
    if q.paused == some true then
      { err := none, requeue := false, syncCalled := false,
        state := { st with events := st.events ++ [queryPausedEvent] } }
    else
      let r := querySyncResources objs st.clientErrorsTotal
      match r.1 with
      | some e =>
        { err := some e, requeue := false, syncCalled := true,
          state := { st with
            clientErrorsTotal := r.2.1,
            reconciliationsFailedTotal := st.reconciliationsFailedTotal + 1,
            writes := st.writes ++ r.2.2,
            events := st.events ++
              [{ etype := "Warning", reason := "SyncFailed",
                 msg := s!"Failed to sync resources: {e}" }] } }
      | none =>
        { err := none, requeue := false, syncCalled := true,
          state := { st with
            clientErrorsTotal := r.2.1,
            writes := st.writes ++ r.2.2 } }

/-- The ThanosStore custom resource, restricted to the fields the embedded
code paths consume: identity, the pause flag, the sharding strategy, the
raw storage-size string, and the duration-ish option strings. -/
structure ThanosStoreRes where
  name : String
  ns : String
  paused : Option Bool
  storageSize : String
  shards : Nat
  shardReplicas : Nat
  minTime : Option String
  maxTime : Option String
  ignoreDeletionMarksDelay : String
deriving DecidableEq

/-- The informational event emitted by the paused short-circuit of the
ThanosStore controller (thanosstore_controller.go line 98). -/
def storePausedEvent : REvent :=
  { etype := "Normal", reason := "Paused",
    msg := "Reconciliation is paused for ThanosStore resource" }

/-- `Reconcile` of the ThanosStore controller (thanosstore_controller.go
lines 78-111): same shape as the query variant (the nested pause test
`if Paused != nil { if *Paused { ... } }` is equivalent to
`paused == some true`); its sync loop additionally emits per-object warning
events, which are appended to the state before the aggregate event. -/
def storeReconcile (fetch : FetchResult ThanosStoreRes) (objs : List SyncObj)
    (st : RecState) : RecOutput :=
  let st := { st with reconciliationsTotal := st.reconciliationsTotal + 1 }
  match fetch with
  | FetchResult.notFound =>
    { err := none, requeue := false, syncCalled := false,
      state := { st with clientErrorsTotal := st.clientErrorsTotal + 1 } }
  | FetchResult.getError msg =>
    { err := some msg, requeue := false, syncCalled := false,
      state := { st with
        clientErrorsTotal := st.clientErrorsTotal + 1,
        reconciliationsFailedTotal := st.reconciliationsFailedTotal + 1,
        events := st.events ++
          [{ etype := "Warning", reason := "GetFailed",
             msg := "Failed to get ThanosStore resource" }] } }
  | FetchResult.found s =>
    if s.paused == some true then
      { err := none, requeue := false, syncCalled := false,
        state := { st with events := st.events ++ [storePausedEvent] } }
    else
      let r := storeSyncResources objs st.clientErrorsTotal
      match r.1 with
      | some e =>
        { err := some e, requeue := false, syncCalled := true,
          state := { st with
            clientErrorsTotal := r.2.1,
            reconciliationsFailedTotal := st.reconciliationsFailedTotal + 1,
            writes := st.writes ++ r.2.2.1,
            events := st.events ++ r.2.2.2 ++
              [{ etype := "Warning", reason := "SyncFailed",
                 msg := s!"Failed to sync resources: {e}" }] } }
      | none =>
        { err := none, requeue := false, syncCalled := true,
          state := { st with
            clientErrorsTotal := r.2.1,
            writes := st.writes ++ r.2.2.1,
            events := st.events ++ r.2.2.2 } }

/-- A parsed Kubernetes resource quantity, kept as its canonical input
string. -/
structure Quantity where
  repr : String
deriving DecidableEq

/-- The suffixes accepted by the quantity grammar (decimal and binary SI). -/
def quantitySuffixes : List String :=
  ["", "n", "u", "m", "k", "M", "G", "T", "P", "E",
   "Ki", "Mi", "Gi", "Ti", "Pi", "Ei"]

/-- Modelled from the Kubernetes quantity grammar (`resource.ParseQuantity`):
an optional sign, a nonempty digit run, an optional fraction, and one of the
accepted suffixes (computed over the character list of the string). -/
def isValidQuantity (s : String) : Bool :=
  let cs := s.data
  let cs := match cs with
    | '+' :: rest => rest
    | '-' :: rest => rest
    | _ => cs
  let digits := cs.takeWhile Char.isDigit
  let rest := cs.drop digits.length
  let rest := match rest with
    | '.' :: r2 =>
      let frac := r2.takeWhile Char.isDigit
      if frac.isEmpty then rest else r2.drop frac.length
    | _ => rest
  !digits.isEmpty && quantitySuffixes.contains (String.mk rest)

/-- Modelled from `k8s.io/apimachinery` `resource.MustParse`: parses the
quantity, and PANICS on a malformed string — the panic is modelled as
`Except.error`. The error constructor therefore marks a Go panic escaping
the caller, not a returned Go error value. -/
def resourceMustParse (s : String) : Except String Quantity :=
  if isValidQuantity s then Except.ok { repr := s }
  else Except.error s!"unable to parse quantity {s}"

/-- `manifests.OptionalToString`: dereference an optional string, empty when
absent. -/
def OptionalToString (s : Option String) : String := s.getD ""

/-- The store option set assembled by `buildStore` and handed to the
Manifest Collaborator (`manifestsstore.StoreOptions`), restricted to the
fields derived from the embedded resource model. -/
structure StoreOptions where
  name : String
  ns : String
  replicas : Nat
  minTime : String
  maxTime : String
  ignoreDeletionMarksDelay : String
  storageSize : Quantity
  shards : Nat
deriving DecidableEq

/-- `buildStore` (thanosstore_controller.go lines 161-194): assembles the
Manifest Collaborator options. In Go its signature is
`func (...) buildStore(store) []client.Object` — it has NO error channel,
and the storage size is parsed with `resource.MustParse`, which panics on a
malformed string; the panic is modelled as `Except.error`. The Manifest
Collaborator call (`BuildStores`) is outside this core (spec section 1), so
the embedding stops at the assembled options. -/
def buildStore (store : ThanosStoreRes) : Except String StoreOptions :=
  match resourceMustParse store.storageSize with
  | Except.error e => Except.error e
  | Except.ok q =>
    Except.ok
      { name := store.name, ns := store.ns, replicas := store.shardReplicas,
        minTime := OptionalToString store.minTime,
        maxTime := OptionalToString store.maxTime,
        ignoreDeletionMarksDelay := store.ignoreDeletionMarksDelay,
        storageSize := q, shards := store.shards }

/-! Concrete fixtures used by the closed theorems and witnesses. -/

/-- A service matching the base labels but advertising no gRPC port. -/
def svcMissingGrpc : Service :=
  { name := "store-svc-noport", ns := "ns-a",
    labels := requiredStoreServiceLabels, ports := [("http", 10902)] }

/-- A valid StoreAPI service carrying the Strict marker label. -/
def svcQueueable : Service :=
  { name := "store-svc", ns := "ns-a",
    labels := [(DefaultStoreAPILabel, DefaultStoreAPIValue),
               (PartOfLabel, DefaultPartOfLabel), (StrictLabel, "true")],
    ports := [("grpc", 10901)] }

/-- A service with neither the base labels nor a gRPC port. -/
def svcIrrelevant : Service :=
  { name := "other-svc", ns := "ns-a", labels := [], ports := [] }

/-- The all-zero initial observable state. -/
def st0 : RecState :=
  { reconciliationsTotal := 0, reconciliationsFailedTotal := 0,
    clientErrorsTotal := 0, events := [], writes := [] }

/-- A ThanosQuery resource with the pause flag explicitly true. -/
def pausedQueryRes : ThanosQueryRes :=
  { name := "q1", ns := "ns-a", paused := some true, storeLabelSelector := none }

/-- A ThanosQuery resource with the pause flag absent (nil pointer). -/
def unpausedQueryRes : ThanosQueryRes :=
  { pausedQueryRes with paused := none }

/-- A ThanosStore resource with the pause flag explicitly true. -/
def pausedStoreRes : ThanosStoreRes :=
  { name := "store-1", ns := "ns-a", paused := some true,
    storageSize := "10Gi", shards := 2, shardReplicas := 2,
    minTime := none, maxTime := none, ignoreDeletionMarksDelay := "24h" }

/-- A ThanosStore resource with the pause flag absent (nil pointer). -/
def unpausedStoreRes : ThanosStoreRes :=
  { pausedStoreRes with paused := none }

/-- A ThanosStore resource with a malformed storage-size string. -/
def badStoreRes : ThanosStoreRes :=
  { pausedStoreRes with
    name := "store-bad"
    paused := none
    storageSize := "not-a-size" }

/-- A query instance with no selector override: its effective selector is
exactly the base labels. -/
def qMatchAll : ThanosQueryRes :=
  { name := "q-match", ns := "ns-a", paused := none, storeLabelSelector := none }

/-- A query instance whose selector override is malformed (invalid match
expression operator), so its selector build fails. -/
def qBadSelector : ThanosQueryRes :=
  { name := "q-bad", ns := "ns-a", paused := none,
    storeLabelSelector := some
      { matchLabels := [],
        matchExpressions := [{ key := "k", op := "BadOp", values := [] }] } }

/-- A query instance whose selector override requires a label the fixture
services do not carry. -/
def qNoMatch : ThanosQueryRes :=
  { name := "q-nomatch", ns := "ns-a", paused := none,
    storeLabelSelector := some
      { matchLabels := [("team", "x")], matchExpressions := [] } }

/-- The fixture list of query instances in the service's namespace. -/
def demoQueriers : List ThanosQueryRes := [qMatchAll, qBadSelector, qNoMatch]

/-- A label map carrying both the Strict and the Group marker labels. -/
def strictAndGroupLabels : Labels :=
  [(StrictLabel, "true"), (GroupLabel, "true")]

/-! Helper lemmas about the sync loops and the routing loop. -/

/-- The query sync loop computes the failure count and the applied names as
a filter of the input list: failures are isolated, successes are kept in
order. -/
theorem querySyncLoop_eq (objs : List SyncObj) :
    querySyncLoop objs =
      ((objs.filter SyncObj.fails).length,
       (objs.filter (fun o => !SyncObj.fails o)).map SyncObj.name) := by
  induction objs with
  | nil => rfl
  | cons o rest ih =>
    cases hN : o.isNamespacedResource <;> cases hO : o.ownerRefError <;>
      cases hC : o.createOrUpdateError <;>
      simp [querySyncLoop, SyncObj.fails, hN, hO, hC, List.filter_cons, ih]

/-- The store sync loop computes the same failure count as the query loop. -/
theorem storeSyncLoop_count (objs : List SyncObj) :
    (storeSyncLoop objs).1 = (objs.filter SyncObj.fails).length := by
  induction objs with
  | nil => rfl
  | cons o rest ih =>
    cases hN : o.isNamespacedResource <;> cases hO : o.ownerRefError <;>
      cases hC : o.createOrUpdateError <;>
      simp [storeSyncLoop, SyncObj.fails, hN, hO, hC, List.filter_cons, ih]

/-- The store sync loop applies exactly the non-failing objects, in order. -/
theorem storeSyncLoop_applied (objs : List SyncObj) :
    (storeSyncLoop objs).2.1 =
      (objs.filter (fun o => !SyncObj.fails o)).map SyncObj.name := by
  induction objs with
  | nil => rfl
  | cons o rest ih =>
    cases hN : o.isNamespacedResource <;> cases hO : o.ownerRefError <;>
      cases hC : o.createOrUpdateError <;>
      simp [storeSyncLoop, SyncObj.fails, hN, hO, hC, List.filter_cons, ih]

/-- The routing loop of `enqueueForService` produces exactly one request per
instance whose effective selector builds and matches, skipping build
failures. -/
theorem routing_filterMap_eq (ls : Labels) (qs : List ThanosQueryRes) :
    (qs.filterMap (fun q =>
      match BuildLabelSelectorFrom q.storeLabelSelector requiredStoreServiceLabels with
      | Except.error _ => none
      | Except.ok sel =>
        if sel.selMatches ls then
          some ({ name := q.name, ns := q.ns } : Request)
        else
          none)) =
    (qs.filter (fun q => effectiveSelectorMatches q ls)).map
      (fun q => ({ name := q.name, ns := q.ns } : Request)) := by
  induction qs with
  | nil => rfl
  | cons q rest ih =>
    simp only [List.filterMap_cons, List.filter_cons]
    cases hb : BuildLabelSelectorFrom q.storeLabelSelector requiredStoreServiceLabels with
    | error e => simp [effectiveSelectorMatches, hb, ih]
    | ok sel =>
      by_cases hm : sel.selMatches ls = true
      · simp [effectiveSelectorMatches, hb, hm, ih]
      · simp [effectiveSelectorMatches, hb, hm, ih]

/-! The claims. -/

/-- C1: the claim states that a matching service lacking the gRPC port label
contributes no endpoint at all (no placeholder) and increments no
endpoint-type counter. The code violates the first part: the endpoint slice
is pre-sized with `make([]Endpoint, len(services.Items))` and the failing
service is `continue`d past, leaving the zero-valued placeholder in the
returned list. Evaluated at the failing input: one matching service without
a gRPC port yields a one-element endpoint list holding the placeholder
(whose type is not even one of the four endpoint types), while — as the
claim also says — no counter is incremented. -/
theorem endpoint_placeholder_on_missing_grpc_port :
    getStoreAPIServiceEndpoints "q1" "ns-a" [svcMissingGrpc] =
      ([zeroEndpoint], [], []) ∧
    zeroEndpoint.etype ≠ RegularLabel ∧
    zeroEndpoint.etype ≠ StrictLabel ∧
    zeroEndpoint.etype ≠ GroupLabel ∧
    zeroEndpoint.etype ≠ GroupStrictLabel := by
  refine ⟨rfl, ?_, ?_, ?_, ?_⟩ <;> decide

/-- C2: over any sync pass with N desired objects of which exactly M fail
(owner-reference establishment or create/update), both controllers isolate
each failure, report the count M in the single aggregate error, increase the
client-error counter by exactly M, keep the N−M successful mutations
applied, and return success with no error when M = 0. -/
theorem sync_partial_failure_isolation (objs : List SyncObj) (ce : Nat) :
    querySyncResources objs ce =
      (if (objs.filter SyncObj.fails).length > 0 then
         some (queryAggMsg (objs.filter SyncObj.fails).length)
       else none,
       ce + (objs.filter SyncObj.fails).length,
       (objs.filter (fun o => !SyncObj.fails o)).map SyncObj.name) ∧
    (storeSyncResources objs ce).1 =
      (if (objs.filter SyncObj.fails).length > 0 then
         some (storeAggMsg (objs.filter SyncObj.fails).length)
       else none) ∧
    (storeSyncResources objs ce).2.1 = ce + (objs.filter SyncObj.fails).length ∧
    (storeSyncResources objs ce).2.2.1 =
      (objs.filter (fun o => !SyncObj.fails o)).map SyncObj.name := by
  have hq := querySyncLoop_eq objs
  have hc := storeSyncLoop_count objs
  have ha := storeSyncLoop_applied objs
  by_cases h : (objs.filter SyncObj.fails).length > 0
  · refine ⟨?_, ?_, ?_, ?_⟩ <;>
      simp [querySyncResources, storeSyncResources, hq, hc, ha, h]
  · have h0 : (objs.filter SyncObj.fails).length = 0 :=
      Nat.le_zero.mp (Nat.not_lt.mp h)
    refine ⟨?_, ?_, ?_, ?_⟩ <;>
      simp [querySyncResources, storeSyncResources, hq, hc, ha, h, h0]

/-- C3 counterexample: the claim says a not-found fetch leaves the
client-error counter unchanged, but both controllers increment
`ClientErrorsTotal` before testing `IsNotFound`, so a not-found fetch does
increment it. -/
theorem notfound_increments_client_errors_counterexample :
    (queryReconcile FetchResult.notFound [] st0).state.clientErrorsTotal ≠
      st0.clientErrorsTotal ∧
    (storeReconcile FetchResult.notFound [] st0).state.clientErrorsTotal ≠
      st0.clientErrorsTotal := by
  decide

/-- C3 amended: a not-found fetch returns terminal success — no error, no
requeue, no event, no sync, with the failed counter and writes unchanged —
but the client-error counter is incremented for every fetch error,
not-found included. -/
theorem notfound_terminal_success (objs : List SyncObj) (st : RecState)
    (msg : String) :
    queryReconcile FetchResult.notFound objs st =
      { err := none, requeue := false, syncCalled := false,
        state := { st with
          reconciliationsTotal := st.reconciliationsTotal + 1,
          clientErrorsTotal := st.clientErrorsTotal + 1 } } ∧
    storeReconcile FetchResult.notFound objs st =
      { err := none, requeue := false, syncCalled := false,
        state := { st with
          reconciliationsTotal := st.reconciliationsTotal + 1,
          clientErrorsTotal := st.clientErrorsTotal + 1 } } ∧
    (queryReconcile (FetchResult.getError msg) objs st).state.clientErrorsTotal =
      st.clientErrorsTotal + 1 ∧
    (storeReconcile (FetchResult.getError msg) objs st).state.clientErrorsTotal =
      st.clientErrorsTotal + 1 :=
  ⟨rfl, rfl, rfl, rfl⟩

/-- C4: the claim says a malformed storage-size string makes the
desired-state build fail with an error returned to the caller, and that no
failure terminates the process. In the code `buildStore` has no error
channel at all and parses the size with `resource.MustParse`, which panics
on a malformed string (modelled as `Except.error`): the pass ends in a
panic, not a returned error. Evaluated at the failing input, and at a well
formed size for contrast. -/
theorem buildstore_mustparse_panics_on_malformed_size :
    buildStore badStoreRes = Except.error "unable to parse quantity not-a-size" ∧
    buildStore { pausedStoreRes with paused := none } =
      Except.ok
        { name := "store-1", ns := "ns-a", replicas := 2,
          minTime := "", maxTime := "", ignoreDeletionMarksDelay := "24h",
          storageSize := { repr := "10Gi" }, shards := 2 } :=
  ⟨rfl, rfl⟩

/-- C5: endpoint classification is a total function of the label set,
assigning one of the four types with priority
Strict > GroupStrict > Group > Regular, Regular being the default; in
particular a label set carrying both the Strict and Group markers
classifies as Strict. -/
theorem classification_priority_total (ls : Labels) :
    (ls.hasKey StrictLabel = true →
      getServiceTypeFromLabel ls = StrictLabel) ∧
    (ls.hasKey StrictLabel = false → ls.hasKey GroupStrictLabel = true →
      getServiceTypeFromLabel ls = GroupStrictLabel) ∧
    (ls.hasKey StrictLabel = false → ls.hasKey GroupStrictLabel = false →
      ls.hasKey GroupLabel = true →
      getServiceTypeFromLabel ls = GroupLabel) ∧
    (ls.hasKey StrictLabel = false → ls.hasKey GroupStrictLabel = false →
      ls.hasKey GroupLabel = false →
      getServiceTypeFromLabel ls = RegularLabel) ∧
    (getServiceTypeFromLabel ls = StrictLabel ∨
     getServiceTypeFromLabel ls = GroupStrictLabel ∨
     getServiceTypeFromLabel ls = GroupLabel ∨
     getServiceTypeFromLabel ls = RegularLabel) ∧
    (ls.hasKey StrictLabel = true → ls.hasKey GroupLabel = true →
      getServiceTypeFromLabel ls = StrictLabel) := by
  cases h1 : ls.hasKey StrictLabel <;>
    cases h2 : ls.hasKey GroupStrictLabel <;>
    cases h3 : ls.hasKey GroupLabel <;>
    simp [getServiceTypeFromLabel, h1, h2, h3]

/-- C5 witness: both the Strict and the Group markers present classifies as
Strict. -/
theorem classification_priority_total_witness :
    getServiceTypeFromLabel strictAndGroupLabels = StrictLabel :=
  (classification_priority_total strictAndGroupLabels).2.2.2.2.2 rfl rfl

/-- C6 counterexample: the claim says a paused pass has no side effects
beyond one informational event and zero writes, but both controllers
increment the `ReconciliationsTotal` counter on entry of every pass, paused
ones included — an additional observable side effect (metrics are
observability side effects in this design). -/
theorem pause_total_counter_side_effect_counterexample :
    (queryReconcile (FetchResult.found pausedQueryRes) [] st0).state.reconciliationsTotal ≠
      st0.reconciliationsTotal ∧
    (storeReconcile (FetchResult.found pausedStoreRes) [] st0).state.reconciliationsTotal ≠
      st0.reconciliationsTotal := by
  decide

/-- C6 amended: when the pause flag is set, the pass emits exactly one
informational event, performs zero cluster writes, leaves the client-error
and failed counters unchanged, never enters the sync protocol, and returns
success with no requeue; the only other side effect is the unconditional
reconciliations-total increment every pass performs on entry. -/
theorem pause_short_circuit (q : ThanosQueryRes) (s : ThanosStoreRes)
    (objs : List SyncObj) (st : RecState)
    (hq : q.paused = some true) (hs : s.paused = some true) :
    queryReconcile (FetchResult.found q) objs st =
      { err := none, requeue := false, syncCalled := false,
        state := { st with
          reconciliationsTotal := st.reconciliationsTotal + 1,
          events := st.events ++ [queryPausedEvent] } } ∧
    storeReconcile (FetchResult.found s) objs st =
      { err := none, requeue := false, syncCalled := false,
        state := { st with
          reconciliationsTotal := st.reconciliationsTotal + 1,
          events := st.events ++ [storePausedEvent] } } := by
  constructor
  · simp [queryReconcile, hq]
  · simp [storeReconcile, hs]

/-- C6 witness: the paused fixtures at the zero state. -/
theorem pause_short_circuit_witness :
    queryReconcile (FetchResult.found pausedQueryRes) [] st0 =
      { err := none, requeue := false, syncCalled := false,
        state := { st0 with
          reconciliationsTotal := st0.reconciliationsTotal + 1,
          events := st0.events ++ [queryPausedEvent] } } ∧
    storeReconcile (FetchResult.found pausedStoreRes) [] st0 =
      { err := none, requeue := false, syncCalled := false,
        state := { st0 with
          reconciliationsTotal := st0.reconciliationsTotal + 1,
          events := st0.events ++ [storePausedEvent] } } :=
  pause_short_circuit pausedQueryRes pausedStoreRes [] st0 rfl rfl

/-- C7: the Service watch predicate admits an update event exactly when the
new object matches the required base service labels AND (the label map
changed OR the generation changed); in particular an event matching the
base labels but changing neither is filtered out. -/
theorem watch_trigger_predicate_iff (o n : ObjMeta) :
    withPredicate (ServiceEvent.update o n) =
      (matchesRequiredLabels requiredStoreServiceLabels n.labels &&
        (!labelsEq o.labels n.labels || !(o.generation == n.generation))) := by
  have h : ∀ a l g : Bool,
      ((a && (l && true)) || ((a && (g && (a && true))) || false)) =
        (a && (l || g)) := by
    decide
  exact h (matchesRequiredLabels requiredStoreServiceLabels n.labels)
    (!labelsEq o.labels n.labels) (!(o.generation == n.generation))

/-- C8: the watch router returns the empty request set for a service that
fails the is-store-API + gRPC-port contract, and otherwise returns exactly
one request per query instance whose effective selector builds and matches
the service labels, skipping (without failing the call) every instance whose
selector fails to build. -/
theorem enqueue_routing (svcA svcB : Service)
    (listRes : Except String (List ThanosQueryRes))
    (qs : List ThanosQueryRes) (m : Nat)
    (hA : isQueueableStoreService svcA = false)
    (hB : isQueueableStoreService svcB = true) :
    enqueueForService svcA listRes m = ([], m) ∧
    (enqueueForService svcB (Except.ok qs) m).1 =
      (qs.filter (fun q => effectiveSelectorMatches q svcB.labels)).map
        (fun q => ({ name := q.name, ns := q.ns } : Request)) := by
  constructor
  · simp [enqueueForService, hA]
  · simp only [enqueueForService, hB, Bool.not_true, Bool.false_eq_true,
      if_false]
    exact routing_filterMap_eq svcB.labels qs

/-- C8 witness: the irrelevant service routes nothing; the queueable service
routes exactly one request — for the instance with no override — while the
instance with the malformed selector is skipped and the non-matching
instance contributes nothing. -/
theorem enqueue_routing_witness :
    enqueueForService svcIrrelevant (Except.ok demoQueriers) 0 = ([], 0) ∧
    (enqueueForService svcQueueable (Except.ok demoQueriers) 0).1 =
      [{ name := "q-match", ns := "ns-a" }] := by
  refine ⟨(enqueue_routing svcIrrelevant svcQueueable
      (Except.ok demoQueriers) demoQueriers 0 rfl rfl).1, ?_⟩
  exact ((enqueue_routing svcIrrelevant svcQueueable
      (Except.ok demoQueriers) demoQueriers 0 rfl rfl).2).trans (by decide)

/-- C9: a failed List of the query instances makes the watch router return
the empty request set — no error is surfaced (the map function has no error
channel), no request is enqueued, and the watch counter is untouched. -/
theorem list_failure_empty_requests (svc : Service) (msg : String) (m : Nat) :
    enqueueForService svc (Except.error msg) m = ([], m) := by
  by_cases h : isQueueableStoreService svc = true
  · simp [enqueueForService, h]
  · simp [enqueueForService, h]

/-- C10: a resource whose pause flag is absent (nil pointer) is treated as
not paused: the pass behaves exactly as for an explicit false flag, enters
the desired-state build and sync, and emits no pause event (only an
explicit true short-circuits). -/
theorem pause_nil_proceeds_to_sync (q : ThanosQueryRes) (s : ThanosStoreRes)
    (objs : List SyncObj) (st : RecState)
    (hq : q.paused = none) (hs : s.paused = none) :
    (queryReconcile (FetchResult.found q) objs st).syncCalled = true ∧
    (storeReconcile (FetchResult.found s) objs st).syncCalled = true ∧
    queryReconcile (FetchResult.found q) objs st =
      queryReconcile (FetchResult.found { q with paused := some false }) objs st ∧
    storeReconcile (FetchResult.found s) objs st =
      storeReconcile (FetchResult.found { s with paused := some false }) objs st := by
  refine ⟨?_, ?_, ?_, ?_⟩
  · simp only [queryReconcile, hq]
    cases h : (querySyncResources objs st.clientErrorsTotal).1 <;> simp [h]
  · simp only [storeReconcile, hs]
    cases h : (storeSyncResources objs st.clientErrorsTotal).1 <;> simp [h]
  · simp [queryReconcile, hq]
  · simp [storeReconcile, hs]

/-- C10 witness: the fixtures with an absent pause flag at the zero state
enter the sync protocol. -/
theorem pause_nil_proceeds_to_sync_witness :
    (queryReconcile (FetchResult.found unpausedQueryRes) [] st0).syncCalled = true :=
  (pause_nil_proceeds_to_sync unpausedQueryRes unpausedStoreRes [] st0 rfl rfl).1
